import Mathlib

/-!
Shallow embedding of the securefiles application (src/app.py) and proofs of
the specification claims about its share-lifecycle core.

The embedding models:
  * the SQLite `files` table (one row per share record, with SQLite type
    affinity on the `max_downloads` INTEGER column),
  * the blob store (the upload folder, a map from file id to stored bytes),
  * the library collaborators (Fernet encryption, werkzeug password hashing,
    werkzeug secure_filename) as small structural models with the properties
    the application relies on,
  * the route handlers `upload_file`, `download_file`, `download_direct` and
    `preview_file` as state-passing functions over the store.
-/

namespace SecureFiles

/-- A value read back from the `max_downloads` column of the `files` table.
The column is declared INTEGER, but SQLite type affinity stores any TEXT that
is not a well-formed integer literal unchanged: inserting the form token
`"unlimited"` yields a TEXT value, while `"1"`, `"5"`, `"10"` become integers. -/
inductive SqlVal where
  | null
  | int (n : Int)
  | text (s : String)
deriving DecidableEq

/-- One row of the `files` table:
`(id, filename, original_filename, expiry, views, max_downloads, password)`.
`expiry` is the stored timestamp (`none` models SQL NULL), `views` counts
downloads (column default 0), `password` is the stored salted hash or NULL. -/
structure FileRecord where
  id : String
  filename : String
  original_filename : String
  expiry : Option Int
  views : Int
  max_downloads : SqlVal
  password : Option String
deriving DecidableEq

/-- The `files` table. -/
abbrev Db := List FileRecord

/-- `SELECT ... FROM files WHERE id = ?` (id is the primary key). -/
def findRecord (db : Db) (fid : String) : Option FileRecord :=
  db.find? (fun r => r.id == fid)

/-- `DELETE FROM files WHERE id = ?`. -/
def deleteRecord (db : Db) (fid : String) : Db :=
  db.filter (fun r => r.id != fid)

/-- `UPDATE files SET views = views + 1 WHERE id = ?` — note: unconditional,
no `max_downloads` comparison in the WHERE clause. -/
def bumpViews (db : Db) (fid : String) : Db :=
  db.map (fun r => if r.id == fid then { r with views := r.views + 1 } else r)

/-- The upload folder: stored files, keyed by their on-disk name. -/
abbrev Blobs := List (String × List Nat)

/-- Read a file from the upload folder. -/
def getBlob (blobs : Blobs) (name : String) : Option (List Nat) :=
  (blobs.find? (fun p => p.1 == name)).map Prod.snd

/-- `file.save(file_path)`: (over)write a file in the upload folder. -/
def putBlob (blobs : Blobs) (name : String) (bytes : List Nat) : Blobs :=
  (name, bytes) :: blobs.filter (fun p => p.1 != name)

/-- The whole persistent state: the `files` table plus the upload folder. -/
structure Store where
  db : Db
  blobs : Blobs
deriving DecidableEq

/-- Model of `cryptography.fernet.Fernet.encrypt` (library code): a Fernet
token always begins with the version byte 0x80 and is strictly longer than
the plaintext (timestamp, IV, padding, HMAC, base64 expansion). We model the
token structurally as the version byte followed by a payload carrying the
plaintext; the property the proofs use is that the token differs from the
plaintext, which holds for the real cipher as well since the real token is
strictly longer than the input. -/
def fernetEncrypt (data : List Nat) : List Nat :=
  128 :: data

/-- Model of `Fernet.decrypt` (library code): inverse of `fernetEncrypt`,
failing (InvalidToken) on anything that is not a well-formed token. -/
def fernetDecrypt : List Nat → Option (List Nat)
  | 128 :: data => some data
  | _ => none

/-- `encrypt_file(file_path)`: read the file, encrypt its contents with the
process-wide cipher, and write them back in place. -/
def encrypt_file (blobs : Blobs) (path : String) : Blobs :=
  blobs.map (fun p => if p.1 == path then (p.1, fernetEncrypt p.2) else p)

/-- `decrypt_file(file_path)`: read the file, decrypt, write back in place;
fails if the contents are not a valid token. Defined in src/app.py but never
called by any route. -/
def decrypt_file (blobs : Blobs) (path : String) : Option Blobs :=
  match getBlob blobs path with
  | none => none
  | some data =>
    match fernetDecrypt data with
    | none => none
    | some plain => some (putBlob blobs path plain)

/-- Model of `werkzeug.security.generate_password_hash` (library code): a
salted hash, modelled as a tagged copy of the password; the property used is
that `check_password_hash (generate_password_hash p) q` holds exactly when
`p = q`, which is the library's contract. -/
def generate_password_hash (p : String) : String :=
  "pbkdf2:sha256$" ++ p

/-- Model of `werkzeug.security.check_password_hash` (library code). -/
def check_password_hash (h p : String) : Bool :=
  h == generate_password_hash p

/-- Model of `werkzeug.utils.secure_filename` (library code): keeps only
ASCII letters, digits and the characters `.`, `-`, `_`. The claims do not
depend on its exact behavior. -/
def secure_filename (s : String) : String :=
  String.mk (s.toList.filter (fun c => c.isAlphanum || c == '.' || c == '-' || c == '_'))

/-- Python `c in s` for a single character. -/
def strContains (s : String) (c : Char) : Bool :=
  s.toList.contains c

/-- Python `s.lower()` (ASCII case folding, which covers every string the
application compares). -/
def strToLower (s : String) : String :=
  String.mk (s.toList.map Char.toLower)

/-- Python `s.rsplit('.', 1)[1]`: the part of `s` after its last `'.'`. -/
def afterLastDot (s : String) : String :=
  String.mk ((s.toList.reverse.takeWhile (fun c => c != '.')).reverse)

/-- Python `s.endswith(suf)`. -/
def strEndsWith (s : String) (suf : String) : Bool :=
  suf.toList.isSuffixOf s.toList

/-- `ALLOWED_EXTENSIONS` from src/app.py. -/
def ALLOWED_EXTENSIONS : List String :=
  ["txt", "pdf", "png", "jpg", "jpeg", "gif", "zip", "rar"]

/-- `allowed_file(filename)`: `'.' in filename and
filename.rsplit('.', 1)[1].lower() in ALLOWED_EXTENSIONS`. -/
def allowed_file (filename : String) : Bool :=
  strContains filename '.' &&
    ALLOWED_EXTENSIONS.contains (strToLower (afterLastDot filename))

/-- The choices of the `expiry` SelectField of `FileUploadForm`; the field
rejects any other value, so `upload_file` only ever runs with one of these. -/
def expiryChoices : List String := ["3h", "1d", "1w", "1m"]

/-- The choices of the `max_downloads` SelectField of `FileUploadForm`. -/
def maxDownloadsChoices : List String := ["1", "5", "10", "unlimited"]

/-- `get_expiry_time(expiry_option)` from src/app.py, with `datetime.now()`
passed in explicitly as `now` (an instant in seconds) and `timedelta` spelled
out in seconds. Returns `none` (Python `None`) for unrecognized options. -/
def get_expiry_time (now : Int) (expiry_option : String) : Option Int :=
  if expiry_option == "3h" then some (now + 3 * 3600)
  else if expiry_option == "1d" then some (now + 86400)
  else if expiry_option == "1w" then some (now + 7 * 86400)
  else if expiry_option == "1m" then some (now + 30 * 86400)
  else none

/-- The numeric value of a list of decimal digits. -/
def digitsToNat (cs : List Char) : Nat :=
  cs.foldl (fun acc c => 10 * acc + (c.toNat - 48)) 0

/-- A well-formed SQLite integer literal: an optional sign followed by one or
more decimal digits; anything else is not converted. -/
def sqliteIntOfString (s : String) : Option Int :=
  match s.toList with
  | [] => none
  | '-' :: cs =>
    if !cs.isEmpty && cs.all Char.isDigit then some (-(digitsToNat cs : Int)) else none
  | '+' :: cs =>
    if !cs.isEmpty && cs.all Char.isDigit then some ((digitsToNat cs : Int)) else none
  | cs =>
    if cs.all Char.isDigit then some ((digitsToNat cs : Int)) else none

/-- SQLite INTEGER-affinity conversion applied when a Python string is bound
into the `max_downloads` column: a well-formed integer literal is stored as an
integer, any other text is stored unchanged as TEXT. -/
def sqliteIntegerAffinity (s : String) : SqlVal :=
  match sqliteIntOfString s with
  | some n => SqlVal.int n
  | none => SqlVal.text s

/-- `upload_file` (route `/upload`), success path. The WTForms validation is
modelled by the guard: the SelectFields only accept their enumerated choices
and the file must pass `allowed_file`. `fileId` stands for the fresh
`str(uuid.uuid4())`. The handler saves the raw bytes, encrypts the file in
place, and inserts the record with `filename = file_id`, `views` defaulting
to 0, the `max_downloads` token stored through SQLite affinity, and the
password hashed when non-empty (`if password else None`). Returns `none` when
validation fails (the route then just flashes and redirects). -/
def upload_file (st : Store) (now : Int) (fileId : String) (submittedName : String)
    (content : List Nat) (expiryTok : String) (maxDlTok : String)
    (password : String) : Option Store :=
  if expiryChoices.contains expiryTok && maxDownloadsChoices.contains maxDlTok &&
      allowed_file submittedName then
    let hashed : Option String :=
      if password == "" then none else some (generate_password_hash password)
    let blobs1 := putBlob st.blobs fileId content
    let blobs2 := encrypt_file blobs1 fileId
    let record : FileRecord :=
      { id := fileId
        filename := fileId
        original_filename := secure_filename submittedName
        expiry := get_expiry_time now expiryTok
        views := 0
        max_downloads := sqliteIntegerAffinity maxDlTok
        password := hashed }
    some { db := st.db ++ [record], blobs := blobs2 }
  else
    none

/-- HTTP method of a request to `/download/<file_id>`. -/
inductive Method where
  | get
  | post
deriving DecidableEq

/-- A request to `/download/<file_id>`: the method and the `password` field
of the PasswordForm (`""` models an absent/empty field). -/
structure Request where
  method : Method
  password : String
deriving DecidableEq

/-- `form.validate_on_submit()` for the PasswordForm: the request is a POST
and the DataRequired password field is non-empty (CSRF, part of the
presentation plumbing, is assumed valid). -/
def validate_on_submit (req : Request) : Bool :=
  req.method == Method.post && req.password != ""

/-- Possible responses of `download_file`. `typeError` models an uncaught
Python TypeError (HTTP 500): raised by `datetime.strptime(None, ...)` when
`expiry` is NULL, and by `max_downloads - views` when `max_downloads` is the
TEXT value `'unlimited'`. -/
inductive DlOutcome where
  | notFoundRedirect
  | expiredRedirect
  | quotaExhaustedRedirect
  | wrongPasswordPage
  | passwordRequiredPage
  | downloadPage (file_id : String) (original_filename : String) (remaining : Option Int)
  | typeError
deriving DecidableEq

/-- The tail of `download_file` after the expiry and quota checks: the
password handling. Mirrors the source's fall-through: the wrong-password page
is returned only when the form validated, a hash is stored and the check
fails; otherwise a GET on a protected record gets the password page; anything
else reaches the download page. `remaining` is `remaining_downloads`
(`none` renders as `'Illimité'`). -/
def downloadPasswordPhase (st : Store) (fid : String) (r : FileRecord)
    (req : Request) (remaining : Option Int) : DlOutcome × Store :=
  if validate_on_submit req &&
      (match r.password with
       | some h => !(check_password_hash h req.password)
       | none => false) then
    (DlOutcome.wrongPasswordPage, st)
  else if r.password.isSome && req.method == Method.get then
    (DlOutcome.passwordRequiredPage, st)
  else
    (DlOutcome.downloadPage fid r.original_filename remaining, st)

/-- `download_file` (route `/download/<file_id>`): loads the row, parses the
stored expiry (`strptime` raises on NULL), deletes the row and redirects when
`now > expiry`, then evaluates `remaining_downloads = max_downloads - views`
when `max_downloads` is not NULL (a TypeError on TEXT), deleting the row and
redirecting when it is ≤ 0, and finally runs the password phase. It never
touches the upload folder and never increments `views`. -/
def download_file (st : Store) (now : Int) (fid : String) (req : Request) :
    DlOutcome × Store :=
  match findRecord st.db fid with
  | none => (DlOutcome.notFoundRedirect, st)
  | some r =>
    match r.expiry with
    | none => (DlOutcome.typeError, st)
    | some expiry_time =>
      if now > expiry_time then
        (DlOutcome.expiredRedirect, { st with db := deleteRecord st.db fid })
      else
        match r.max_downloads with
        | SqlVal.null => downloadPasswordPhase st fid r req none
        | SqlVal.int m =>
          if m - r.views ≤ 0 then
            (DlOutcome.quotaExhaustedRedirect, { st with db := deleteRecord st.db fid })
          else
            downloadPasswordPhase st fid r req (some (m - r.views))
        | SqlVal.text _ => (DlOutcome.typeError, st)

/-- Possible responses of `download_direct`. `blobMissingError` models the
404 raised by `send_from_directory` when the file is absent — note the views
increment has already been committed at that point. -/
inductive DirectOutcome where
  | delivered (bytes : List Nat) (downloadName : String)
  | notFoundRedirect
  | blobMissingError
deriving DecidableEq

/-- `download_direct` (route `/download_direct/<file_id>`): looks the row up,
unconditionally runs `UPDATE files SET views = views + 1`, commits, and serves
the stored file `file_id` from the upload folder as an attachment — with no
expiry check, no quota check, no password check, and no decryption. -/
def download_direct (st : Store) (fid : String) : DirectOutcome × Store :=
  match findRecord st.db fid with
  | none => (DirectOutcome.notFoundRedirect, st)
  | some r =>
    let st' : Store := { st with db := bumpViews st.db fid }
    match getBlob st.blobs fid with
    | some bytes => (DirectOutcome.delivered bytes r.original_filename, st')
    | none => (DirectOutcome.blobMissingError, st')

/-- Possible responses of `preview_file`. -/
inductive PreviewOutcome where
  | sendImage (bytes : Option (List Nat))
  | sendPdf (bytes : Option (List Nat))
  | redirectDownload (fid : String)
  | redirectNotFound
deriving DecidableEq

/-- The image-extension test of `preview_file`:
`filename.lower().endswith(('.png', '.jpg', '.jpeg', '.gif'))`. -/
def isImageName (filename : String) : Bool :=
  [".png", ".jpg", ".jpeg", ".gif"].any (fun suf => strEndsWith (strToLower filename) suf)

/-- `preview_file` (route `/preview/<file_id>`): SELECTs only `filename`;
absent rows redirect to the not-found page; image and pdf filenames would be
sent inline; everything else redirects to `download_file`. It performs no
write at all. Every record inserted by `upload_file` has `filename` equal to
its UUID4 id, which contains no `'.'`, so for reachable records both
extension tests are false and the record branch always redirects to
`download_file`. -/
def preview_file (st : Store) (fid : String) : PreviewOutcome × Store :=
  match findRecord st.db fid with
  | none => (PreviewOutcome.redirectNotFound, st)
  | some r =>
    if isImageName r.filename then
      (PreviewOutcome.sendImage (getBlob st.blobs r.filename), st)
    else if strEndsWith (strToLower r.filename) ".pdf" then
      (PreviewOutcome.sendPdf (getBlob st.blobs r.filename), st)
    else
      (PreviewOutcome.redirectDownload fid, st)

/-- What the client observes after issuing a preview request and following
any redirect it answers with: either file content sent directly by
`preview_file`, or the response of the GET on `download_file` the redirect
points to, or the not-found page. -/
inductive PreviewFollowed where
  | content (bytes : Option (List Nat))
  | download (o : DlOutcome)
  | notFoundPage
deriving DecidableEq

/-- A preview request followed through its redirect: the redirect to
`download_file` is a GET with no form data. -/
def preview_then_follow (st : Store) (now : Int) (fid : String) :
    PreviewFollowed × Store :=
  match preview_file st fid with
  | (PreviewOutcome.sendImage b, st') => (PreviewFollowed.content b, st')
  | (PreviewOutcome.sendPdf b, st') => (PreviewFollowed.content b, st')
  | (PreviewOutcome.redirectDownload f, st') =>
    let res := download_file st' now f { method := Method.get, password := "" }
    (PreviewFollowed.download res.1, res.2)
  | (PreviewOutcome.redirectNotFound, st') => (PreviewFollowed.notFoundPage, st')

/-- The quota branch of `download_file` lets the request through to the
password phase: `max_downloads` is NULL, or is an integer with
`max_downloads - views > 0`. -/
def quotaBranchPasses (r : FileRecord) : Bool :=
  match r.max_downloads with
  | SqlVal.null => true
  | SqlVal.int m => decide (0 < m - r.views)
  | SqlVal.text _ => false

/-! ### Helper lemmas about the store operations -/

theorem findRecord_bumpViews (db : Db) (fid : String) :
    findRecord (bumpViews db fid) fid =
      (findRecord db fid).map (fun r => { r with views := r.views + 1 }) := by
  induction db with
  | nil => rfl
  | cons r db ih =>
    by_cases h : (r.id == fid) = true
    · simp [findRecord, bumpViews, List.find?, h]
    · simp only [Bool.not_eq_true] at h
      simp only [findRecord, bumpViews, List.map, List.find?, h, if_neg, Bool.false_eq_true,
        reduceIte]
      exact ih

theorem findRecord_deleteRecord (db : Db) (fid : String) :
    findRecord (deleteRecord db fid) fid = none := by
  induction db with
  | nil => rfl
  | cons r db ih =>
    by_cases h : (r.id == fid) = true
    · simp only [deleteRecord] at ih ⊢
      simp [findRecord, List.find?, bne, h, ih]
    · simp only [Bool.not_eq_true] at h
      simp only [deleteRecord] at ih ⊢
      simp [findRecord, List.find?, bne, h, ih]

theorem downloadPasswordPhase_snd (st : Store) (fid : String) (r : FileRecord)
    (req : Request) (rem : Option Int) :
    (downloadPasswordPhase st fid r req rem).2 = st := by
  unfold downloadPasswordPhase
  split
  · rfl
  · split
    · rfl
    · rfl

/-! ### Branch equations for the route handlers -/

theorem download_direct_found (st : Store) (fid : String) (r : FileRecord)
    (h : findRecord st.db fid = some r) :
    (download_direct st fid).2 = { st with db := bumpViews st.db fid } := by
  simp only [download_direct, h]
  split <;> rfl

theorem download_direct_delivered (st : Store) (fid : String) (r : FileRecord)
    (bytes : List Nat) (h : findRecord st.db fid = some r)
    (hb : getBlob st.blobs fid = some bytes) :
    download_direct st fid =
      (DirectOutcome.delivered bytes r.original_filename,
       { st with db := bumpViews st.db fid }) := by
  simp only [download_direct, h, hb]

theorem download_file_expired (st : Store) (now : Int) (fid : String) (req : Request)
    (r : FileRecord) (t : Int) (h : findRecord st.db fid = some r)
    (he : r.expiry = some t) (hn : now > t) :
    download_file st now fid req =
      (DlOutcome.expiredRedirect, { st with db := deleteRecord st.db fid }) := by
  simp only [download_file, h, he, if_pos hn]

theorem download_file_null_expiry (st : Store) (now : Int) (fid : String) (req : Request)
    (r : FileRecord) (h : findRecord st.db fid = some r) (he : r.expiry = none) :
    download_file st now fid req = (DlOutcome.typeError, st) := by
  simp only [download_file, h, he]

theorem download_file_text_quota (st : Store) (now : Int) (fid : String) (req : Request)
    (r : FileRecord) (t : Int) (s : String) (h : findRecord st.db fid = some r)
    (he : r.expiry = some t) (hn : ¬ now > t) (hm : r.max_downloads = SqlVal.text s) :
    download_file st now fid req = (DlOutcome.typeError, st) := by
  simp only [download_file, h, he, if_neg hn, hm]

theorem download_file_quota_exhausted (st : Store) (now : Int) (fid : String) (req : Request)
    (r : FileRecord) (t : Int) (m : Int) (h : findRecord st.db fid = some r)
    (he : r.expiry = some t) (hn : ¬ now > t) (hm : r.max_downloads = SqlVal.int m)
    (hq : m - r.views ≤ 0) :
    download_file st now fid req =
      (DlOutcome.quotaExhaustedRedirect, { st with db := deleteRecord st.db fid }) := by
  simp only [download_file, h, he, if_neg hn, hm, if_pos hq]

theorem download_file_quota_int_ok (st : Store) (now : Int) (fid : String) (req : Request)
    (r : FileRecord) (t : Int) (m : Int) (h : findRecord st.db fid = some r)
    (he : r.expiry = some t) (hn : ¬ now > t) (hm : r.max_downloads = SqlVal.int m)
    (hq : ¬ m - r.views ≤ 0) :
    download_file st now fid req = downloadPasswordPhase st fid r req (some (m - r.views)) := by
  simp only [download_file, h, he, if_neg hn, hm, if_neg hq]

theorem download_file_quota_null (st : Store) (now : Int) (fid : String) (req : Request)
    (r : FileRecord) (t : Int) (h : findRecord st.db fid = some r)
    (he : r.expiry = some t) (hn : ¬ now > t) (hm : r.max_downloads = SqlVal.null) :
    download_file st now fid req = downloadPasswordPhase st fid r req none := by
  simp only [download_file, h, he, if_neg hn, hm]

theorem downloadPasswordPhase_get_protected (st : Store) (fid : String) (r : FileRecord)
    (rem : Option Int) (hpw : r.password.isSome = true) :
    downloadPasswordPhase st fid r { method := Method.get, password := "" } rem =
      (DlOutcome.passwordRequiredPage, st) := by
  unfold downloadPasswordPhase validate_on_submit
  simp [hpw]

theorem download_file_get_protected (st : Store) (now : Int) (fid : String) (r : FileRecord)
    (t : Int) (h : findRecord st.db fid = some r) (hpw : r.password.isSome = true)
    (he : r.expiry = some t) (hn : ¬ now > t) (hq : quotaBranchPasses r = true) :
    download_file st now fid { method := Method.get, password := "" } =
      (DlOutcome.passwordRequiredPage, st) := by
  unfold quotaBranchPasses at hq
  cases hm : r.max_downloads with
  | null =>
    rw [download_file_quota_null st now fid _ r t h he hn hm]
    exact downloadPasswordPhase_get_protected st fid r none hpw
  | int m =>
    rw [hm] at hq
    simp only [decide_eq_true_eq] at hq
    rw [download_file_quota_int_ok st now fid _ r t m h he hn hm (by omega)]
    exact downloadPasswordPhase_get_protected st fid r (some (m - r.views)) hpw
  | text s =>
    rw [hm] at hq
    exact absurd hq (by simp)

theorem preview_file_snd (st : Store) (fid : String) :
    (preview_file st fid).2 = st := by
  unfold preview_file
  split
  · rfl
  · split
    · rfl
    · split
      · rfl
      · rfl

theorem download_file_blobs (st : Store) (now : Int) (fid : String) (req : Request) :
    ((download_file st now fid req).2).blobs = st.blobs := by
  unfold download_file
  split
  · rfl
  · split
    · rfl
    · split
      · rfl
      · split
        · rw [downloadPasswordPhase_snd]
        · split
          · rfl
          · rw [downloadPasswordPhase_snd]
        · rfl

theorem download_file_db_cases (st : Store) (now : Int) (fid : String) (req : Request) :
    ((download_file st now fid req).2).db = st.db ∨
      ((download_file st now fid req).2).db = deleteRecord st.db fid := by
  unfold download_file
  split
  · exact Or.inl rfl
  · split
    · exact Or.inl rfl
    · split
      · exact Or.inr rfl
      · split
        · rw [downloadPasswordPhase_snd]
          exact Or.inl rfl
        · split
          · exact Or.inr rfl
          · rw [downloadPasswordPhase_snd]
            exact Or.inl rfl
        · exact Or.inl rfl

/-! ### Claim C1 — quota invariant on the download counter -/

/-- A concrete record for C1: its quota of 1 download is already consumed
(`views = 1 = max_downloads`), it is not expired and has no password. -/
def recC1 : FileRecord :=
  { id := "a", filename := "a", original_filename := "doc.pdf",
    expiry := some 1000, views := 1, max_downloads := SqlVal.int 1, password := none }

/-- The store holding `recC1` and its (encrypted) blob. -/
def stC1 : Store := { db := [recC1], blobs := [("a", [128, 7])] }

/-- C1 counterexample: the claim says the stored counter never exceeds
`max_downloads` and that increments happen only through a check-and-increment
verifying `views < max_downloads`. On a record with `views = 1` and
`max_downloads = 1`, `download_direct` nevertheless delivers the content and
stores `views = 2 > 1`. -/
theorem C1_counterexample :
    (download_direct stC1 "a").1 = DirectOutcome.delivered [128, 7] "doc.pdf"
    ∧ findRecord ((download_direct stC1 "a").2).db "a" = some { recC1 with views := 2 }
    ∧ recC1.max_downloads = SqlVal.int 1 ∧ ¬ ((2 : Int) ≤ 1) := by
  refine ⟨by decide, by decide, by decide, by decide⟩

/-- C1 (amended): the download counter is updated only by `download_direct`,
which increments it unconditionally (`UPDATE files SET views = views + 1`,
with no quota condition and no check against `max_downloads`) whenever the
record exists — regardless of quota, expiry or password, and even when the
delivery then fails because the blob is missing. Hence `views` is not bounded
by `max_downloads`. -/
theorem C1_increment_unconditional (st : Store) (fid : String) (r : FileRecord)
    (h : findRecord st.db fid = some r) :
    findRecord ((download_direct st fid).2).db fid = some { r with views := r.views + 1 }
    ∧ ((download_direct st fid).2).blobs = st.blobs := by
  rw [download_direct_found st fid r h]
  refine ⟨?_, rfl⟩
  rw [findRecord_bumpViews, h]
  rfl

/-- Witness for C1 at the concrete store `stC1`. -/
theorem C1_witness :
    findRecord ((download_direct stC1 "a").2).db "a" = some { recC1 with views := recC1.views + 1 }
    ∧ ((download_direct stC1 "a").2).blobs = stC1.blobs :=
  C1_increment_unconditional stC1 "a" recC1 (by decide)

/-! ### Claim C2 — expiry is checked before anything else -/

/-- A concrete record for C2: expired at instant 10, with quota remaining and
a password set, and its blob present. -/
def recC2 : FileRecord :=
  { id := "b", filename := "b", original_filename := "notes.txt",
    expiry := some 10, views := 0, max_downloads := SqlVal.int 5,
    password := some (generate_password_hash "secret") }

/-- The store holding `recC2` and its blob. -/
def stC2 : Store := { db := [recC2], blobs := [("b", [128, 1, 2])] }

/-- C2 counterexample: the claim says any content delivery at an instant at
or after `expires_at` returns Expired and never serves the content. At
instant 11 ≥ 10 = expiry, `download_direct` (which takes no clock input at
all and performs no expiry comparison) still serves the bytes. -/
theorem C2_counterexample :
    recC2.expiry = some 10 ∧ (11 : Int) ≥ 10
    ∧ (download_direct stC2 "b").1 = DirectOutcome.delivered [128, 1, 2] "notes.txt" := by
  refine ⟨by decide, by decide, by decide⟩

/-- C2 (amended): `download_file` does evaluate the expiry check before the
quota and password checks and, for any request whatsoever, rejects with the
expired redirect and deletes the record whenever `now` is strictly after
`expires_at`; but the comparison is strict (at `now = expires_at` it still
serves), and `download_direct` performs no expiry check at all and serves
content of expired records. -/
theorem C2_expiry_checked_first (st : Store) (now : Int) (fid : String) (req : Request)
    (r : FileRecord) (t : Int) (h : findRecord st.db fid = some r)
    (he : r.expiry = some t) (hn : now > t) :
    download_file st now fid req =
      (DlOutcome.expiredRedirect, { st with db := deleteRecord st.db fid }) :=
  download_file_expired st now fid req r t h he hn

/-- Witness for C2 at the concrete store `stC2`, instant 11, a POST carrying
the correct password: the expiry check fires before the password is even
looked at. -/
theorem C2_witness :
    download_file stC2 11 "b" { method := Method.post, password := "secret" } =
      (DlOutcome.expiredRedirect, { stC2 with db := deleteRecord stC2.db "b" }) :=
  C2_expiry_checked_first stC2 11 "b" _ recC2 10 (by decide) (by decide) (by decide)

/-! ### Claim C3 — the password gate -/

/-- A concrete record for C3: password-protected, not expired, quota
available, blob present. -/
def recC3 : FileRecord :=
  { id := "c", filename := "c", original_filename := "secret.zip",
    expiry := some 1000, views := 0, max_downloads := SqlVal.int 5,
    password := some (generate_password_hash "pw") }

/-- The store holding `recC3` and its blob. -/
def stC3 : Store := { db := [recC3], blobs := [("c", [128, 3])] }

/-- C3 counterexample: the claim says there is no path that delivers the
bytes of a password-protected share without a successful password check.
`download_direct` takes no password input at all and delivers the stored
bytes of the protected record. -/
theorem C3_counterexample :
    recC3.password.isSome = true
    ∧ (download_direct stC3 "c").1 = DirectOutcome.delivered [128, 3] "secret.zip" := by
  refine ⟨by decide, by decide⟩

/-- C3 (amended): `download_file` itself never serves file bytes and, on a
GET request for a password-protected, unexpired share with quota remaining,
returns the password-required page without touching the store; but the
byte-serving route `download_direct` performs no password check whatsoever,
so the bytes of a password-protected share are obtainable without any
password. -/
theorem C3_password_gate (st : Store) (now : Int) (fid : String) (r : FileRecord) (t : Int)
    (h : findRecord st.db fid = some r) (hpw : r.password.isSome = true)
    (he : r.expiry = some t) (hn : ¬ now > t) (hq : quotaBranchPasses r = true) :
    download_file st now fid { method := Method.get, password := "" } =
      (DlOutcome.passwordRequiredPage, st)
    ∧ ∀ bytes, getBlob st.blobs fid = some bytes →
        (download_direct st fid).1 = DirectOutcome.delivered bytes r.original_filename := by
  constructor
  · exact download_file_get_protected st now fid r t h hpw he hn hq
  · intro bytes hb
    rw [download_direct_delivered st fid r bytes h hb]

/-- Witness for C3 at the concrete store `stC3`. -/
theorem C3_witness :
    download_file stC3 5 "c" { method := Method.get, password := "" } =
      (DlOutcome.passwordRequiredPage, stC3) :=
  (C3_password_gate stC3 5 "c" recC3 1000 (by decide) (by decide) (by decide)
    (by decide) (by decide)).1

/-! ### Claim C4 — round-trip fidelity through the encryption layer -/

/-- C4: create-then-consume does NOT return the uploaded bytes. For every
uploaded byte sequence, uploading it (here under the fresh id `"idc4"`, with
duration `"3h"`, quota `"5"` and no password — so quota is available and no
password is required) and then fetching it through the byte-serving route
delivers the Fernet token stored on disk, because `send_from_directory`
serves the file as stored and `decrypt_file` is never called on any path;
and that token always differs from the uploaded bytes. -/
theorem C4_delivery_is_encrypted_bytes (now : Int) (content : List Nat) :
    ∃ st : Store,
      upload_file { db := [], blobs := [] } now "idc4" "doc.pdf" content "3h" "5" "" = some st
      ∧ (download_direct st "idc4").1 =
          DirectOutcome.delivered (fernetEncrypt content) "doc.pdf"
      ∧ fernetEncrypt content ≠ content := by
  refine ⟨{ db := [{ id := "idc4", filename := "idc4", original_filename := "doc.pdf",
                     expiry := some (now + 3 * 3600), views := 0,
                     max_downloads := SqlVal.int 5, password := none }],
            blobs := [("idc4", fernetEncrypt content)] }, by rfl, by rfl, ?_⟩
  intro hca
  have hlen := congrArg List.length hca
  simp [fernetEncrypt] at hlen

/-- The decryption the source defines (but never invokes on the delivery
path) really is the inverse of the encryption applied at upload time: what
fails in C4 is the wiring, not the cipher pair. -/
theorem fernet_round_trip (data : List Nat) : fernetDecrypt (fernetEncrypt data) = some data :=
  rfl

/-! ### Claim C5 — no double delivery on a quota of one -/

/-- A concrete record for C5: a fresh share with `max_downloads = 1`. -/
def recC5 : FileRecord :=
  { id := "e", filename := "e", original_filename := "a.zip",
    expiry := some 1000000, views := 0, max_downloads := SqlVal.int 1, password := none }

/-- The store holding `recC5` and its blob. -/
def stC5 : Store := { db := [recC5], blobs := [("e", [128, 9, 9])] }

/-- C5 counterexample: the claim says two concurrent accesses on a
`max_downloads = 1` record yield exactly one Delivered, never two. Sequential
execution is one of the possible interleavings, and already it delivers
twice: both back-to-back `download_direct` calls return the content. -/
theorem C5_counterexample :
    recC5.max_downloads = SqlVal.int 1
    ∧ (download_direct stC5 "e").1 = DirectOutcome.delivered [128, 9, 9] "a.zip"
    ∧ (download_direct ((download_direct stC5 "e").2) "e").1 =
        DirectOutcome.delivered [128, 9, 9] "a.zip" := by
  refine ⟨by decide, by decide, by decide⟩

/-- C5 (amended): there is no conditional update at all — the store update is
the unconditional `views = views + 1`, so any number of accesses deliver: on
any record whose blob is present, two successive `download_direct` calls both
return Delivered with the full content, whatever `max_downloads` is
(including 1). -/
theorem C5_double_delivery (st : Store) (fid : String) (r : FileRecord) (bytes : List Nat)
    (h : findRecord st.db fid = some r) (hb : getBlob st.blobs fid = some bytes) :
    (download_direct st fid).1 = DirectOutcome.delivered bytes r.original_filename
    ∧ (download_direct ((download_direct st fid).2) fid).1 =
        DirectOutcome.delivered bytes r.original_filename := by
  have h1 := download_direct_delivered st fid r bytes h hb
  constructor
  · rw [h1]
  · rw [h1]
    have h2 : findRecord (bumpViews st.db fid) fid = some { r with views := r.views + 1 } := by
      rw [findRecord_bumpViews, h]
      rfl
    rw [download_direct_delivered { st with db := bumpViews st.db fid } fid
      { r with views := r.views + 1 } bytes h2 hb]

/-- Witness for C5 at the concrete store `stC5`. -/
theorem C5_witness :
    (download_direct stC5 "e").1 = DirectOutcome.delivered [128, 9, 9] recC5.original_filename
    ∧ (download_direct ((download_direct stC5 "e").2) "e").1 =
        DirectOutcome.delivered [128, 9, 9] recC5.original_filename :=
  C5_double_delivery stC5 "e" recC5 [128, 9, 9] (by decide) (by decide)

/-! ### Claim C6 — record and blob deleted as one unit -/

/-- A concrete record for C6: expired at instant 10, blob present. -/
def recC6 : FileRecord :=
  { id := "f", filename := "f", original_filename := "x.txt",
    expiry := some 10, views := 0, max_downloads := SqlVal.null, password := none }

/-- The store holding `recC6` and its blob. -/
def stC6 : Store := { db := [recC6], blobs := [("f", [128, 4])] }

/-- C6 counterexample: the claim says an access observing expiry deletes the
record and the blob as one logical unit, so the blob does not outlive the
record. After `download_file` observes that `recC6` is expired, the record is
gone from the table but the blob is still present in the upload folder. -/
theorem C6_counterexample :
    download_file stC6 100 "f" { method := Method.get, password := "" } =
      (DlOutcome.expiredRedirect, { db := [], blobs := [("f", [128, 4])] })
    ∧ getBlob [("f", [128, 4])] "f" = some [128, 4] := by
  refine ⟨by decide, by decide⟩

/-- C6 (amended): when an access observes expiry or quota exhaustion it
deletes only the metadata row (`DELETE FROM files`); no code path removes the
blob from the upload folder (`download_file` leaves the folder untouched on
every branch), so the blob outlives the record. -/
theorem C6_record_deleted_blob_kept (st : Store) (now : Int) (fid : String) (req : Request)
    (r : FileRecord) (h : findRecord st.db fid = some r) :
    (∀ t, r.expiry = some t → now > t →
      download_file st now fid req =
        (DlOutcome.expiredRedirect, { db := deleteRecord st.db fid, blobs := st.blobs }))
    ∧ (∀ t m, r.expiry = some t → ¬ now > t → r.max_downloads = SqlVal.int m →
        m - r.views ≤ 0 →
      download_file st now fid req =
        (DlOutcome.quotaExhaustedRedirect, { db := deleteRecord st.db fid, blobs := st.blobs }))
    ∧ ((download_file st now fid req).2).blobs = st.blobs := by
  refine ⟨?_, ?_, download_file_blobs st now fid req⟩
  · intro t he hn
    exact download_file_expired st now fid req r t h he hn
  · intro t m he hn hm hq
    exact download_file_quota_exhausted st now fid req r t m h he hn hm hq

/-- Witness for C6 at the concrete store `stC6`: the expired access deletes
the row and leaves the blob in place. -/
theorem C6_witness :
    download_file stC6 100 "f" { method := Method.get, password := "" } =
      (DlOutcome.expiredRedirect, { db := deleteRecord stC6.db "f", blobs := stC6.blobs }) :=
  (C6_record_deleted_blob_kept stC6 100 "f" _ recC6 (by decide)).1 10 (by decide) (by decide)

/-! ### Claim C7 — the "unlimited" token -/

/-- The record produced by uploading with the `"unlimited"` quota token at
instant `now`: the token is stored through SQLite INTEGER affinity as the
TEXT value `'unlimited'`, not as NULL. -/
def recC7 (now : Int) : FileRecord :=
  { id := "idc7", filename := "idc7", original_filename := "doc.pdf",
    expiry := some (now + 3 * 3600), views := 0,
    max_downloads := SqlVal.text "unlimited", password := none }

/-- C7: the claim says the `"unlimited"` token is stored as null and such a
share is never denied (and never errors) for quota reasons. In fact the
upload stores the literal TEXT `'unlimited'` (SQLite integer affinity leaves
it unconverted), so the `max_downloads is not None` branch of `download_file`
runs and evaluates `'unlimited' - views`, an uncaught TypeError (HTTP 500):
every subsequent visit of the download page fails. -/
theorem C7_unlimited_stored_as_text (now : Int) (content : List Nat) :
    ∃ st : Store,
      upload_file { db := [], blobs := [] } now "idc7" "doc.pdf" content "3h" "unlimited" ""
        = some st
      ∧ (findRecord st.db "idc7").map FileRecord.max_downloads =
          some (SqlVal.text "unlimited")
      ∧ (download_file st (now + 1) "idc7" { method := Method.get, password := "" }).1 =
          DlOutcome.typeError := by
  refine ⟨{ db := [recC7 now], blobs := [("idc7", fernetEncrypt content)] },
    by rfl, by rfl, ?_⟩
  rw [download_file_text_quota { db := [recC7 now], blobs := [("idc7", fernetEncrypt content)] }
    (now + 1) "idc7" _ (recC7 now) (now + 3 * 3600) "unlimited" (by rfl) rfl (by omega) rfl]

/-! ### Claim C8 — null expiry -/

/-- A concrete record for C8: `expires_at` is NULL. -/
def recC8 : FileRecord :=
  { id := "g", filename := "g", original_filename := "x.txt",
    expiry := none, views := 0, max_downloads := SqlVal.null, password := none }

/-- The store holding `recC8`. -/
def stC8 : Store := { db := [recC8], blobs := [] }

/-- C8 counterexample: the claim says an access to a record with null
`expires_at` completes without error. `download_file` parses the stored
expiry unconditionally (`datetime.strptime(expiry, ...)`), which on NULL
raises a TypeError instead of completing. -/
theorem C8_counterexample :
    recC8.expiry = none
    ∧ (download_file stC8 0 "g" { method := Method.get, password := "" }).1 =
        DlOutcome.typeError := by
  refine ⟨by decide, by decide⟩

/-- C8 (amended): a record whose `expires_at` is null makes `download_file`
fail with a type error from the unconditional expiry parse, for every request
and instant, rather than being treated as never-expiring (it is indeed never
rejected as Expired — the access does not get that far). In practice
`upload_file` never creates such a record: every duration token the form
accepts yields a non-null expiry. -/
theorem C8_null_expiry_errors (st : Store) (now : Int) (fid : String) (req : Request)
    (r : FileRecord) (h : findRecord st.db fid = some r) (he : r.expiry = none) :
    download_file st now fid req = (DlOutcome.typeError, st)
    ∧ ∀ tok, tok ∈ expiryChoices → (get_expiry_time now tok).isSome = true := by
  refine ⟨download_file_null_expiry st now fid req r h he, ?_⟩
  intro tok htok
  simp only [expiryChoices, List.mem_cons, List.not_mem_nil, or_false] at htok
  rcases htok with rfl | rfl | rfl | rfl <;> rfl

/-- Witness for C8 at the concrete store `stC8`. -/
theorem C8_witness :
    download_file stC8 0 "g" { method := Method.get, password := "" } =
      (DlOutcome.typeError, stC8) :=
  (C8_null_expiry_errors stC8 0 "g" _ recC8 (by decide) (by decide)).1

/-! ### Claim C9 — preview applies the access checks and never counts -/

/-- A concrete record for C9: password-protected, not expired, quota
available. Its `filename` is the UUID-style id, so neither extension test of
`preview_file` matches. -/
def recC9 : FileRecord :=
  { id := "h", filename := "h", original_filename := "pres.pdf",
    expiry := some 1000, views := 0, max_downloads := SqlVal.int 3,
    password := some (generate_password_hash "s") }

/-- The store holding `recC9` and its blob. -/
def stC9 : Store := { db := [recC9], blobs := [("h", [128, 2])] }

/-- C9: `preview_file` performs no write at all (in particular it never
increments the download counter); an absent id answers the not-found
redirect; and for any present record whose stored `filename` matches neither
extension test — which is every record `upload_file` creates, since it stores
the dot-free UUID id as `filename` — the preview is a redirect into
`download_file`, whose GET then rejects an expired share with the expired
redirect and answers a password-protected, unexpired, quota-available share
with the password page, never serving content past the gate; and following
the redirect leaves the counter of the record (if it survives) unchanged. -/
theorem C9_preview_checks (st : Store) (now : Int) (fid : String) :
    (preview_file st fid).2 = st
    ∧ (findRecord st.db fid = none →
        (preview_file st fid).1 = PreviewOutcome.redirectNotFound)
    ∧ ∀ r, findRecord st.db fid = some r →
        isImageName r.filename = false → strEndsWith (strToLower r.filename) ".pdf" = false →
        ((preview_file st fid).1 = PreviewOutcome.redirectDownload fid
         ∧ (∀ t, r.expiry = some t → now > t →
             (preview_then_follow st now fid).1 =
               PreviewFollowed.download DlOutcome.expiredRedirect)
         ∧ (∀ t, r.password.isSome = true → r.expiry = some t → ¬ now > t →
             quotaBranchPasses r = true →
             (preview_then_follow st now fid).1 =
               PreviewFollowed.download DlOutcome.passwordRequiredPage)
         ∧ (∀ r', findRecord ((preview_then_follow st now fid).2).db fid = some r' →
             r'.views = r.views)) := by
  refine ⟨preview_file_snd st fid, ?_, ?_⟩
  · intro h
    simp [preview_file, h]
  · intro r hfound himg hpdf
    have hpre : preview_file st fid = (PreviewOutcome.redirectDownload fid, st) := by
      simp [preview_file, hfound, himg, hpdf]
    have hfollow : preview_then_follow st now fid =
        (PreviewFollowed.download
          (download_file st now fid { method := Method.get, password := "" }).1,
         (download_file st now fid { method := Method.get, password := "" }).2) := by
      simp [preview_then_follow, hpre]
    refine ⟨by rw [hpre], ?_, ?_, ?_⟩
    · intro t he hn
      rw [hfollow]
      simp only
      rw [download_file_expired st now fid _ r t hfound he hn]
    · intro t hpw he hn hq
      rw [hfollow]
      simp only
      rw [download_file_get_protected st now fid r t hfound hpw he hn hq]
    · intro r' h'
      rw [hfollow] at h'
      simp only at h'
      rcases download_file_db_cases st now fid { method := Method.get, password := "" } with
        hdb | hdb
      · rw [hdb, hfound] at h'
        injection h' with hh
        rw [← hh]
      · rw [hdb, findRecord_deleteRecord] at h'
        cases h'

/-- Witness for C9 at the concrete store `stC9`: the composed preview of the
password-protected share ends on the password page. -/
theorem C9_witness :
    (preview_then_follow stC9 5 "h").1 = PreviewFollowed.download DlOutcome.passwordRequiredPage :=
  ((C9_preview_checks stC9 5 "h").2.2 recC9 (by decide) (by decide)
    (by decide)).2.2.1 1000 (by decide) (by decide) (by decide) (by decide)

/-! ### Claim C10 — a failed password attempt changes nothing -/

/-- C10: whenever `download_file` answers the wrong-password page — the
outcome of an access whose supplied password attempt failed verification —
the whole store (the record's `views` and every other field, and the upload
folder) is returned unchanged. -/
theorem C10_failed_password_frame (st : Store) (now : Int) (fid : String) (req : Request)
    (h : (download_file st now fid req).1 = DlOutcome.wrongPasswordPage) :
    (download_file st now fid req).2 = st := by
  cases hf : findRecord st.db fid with
  | none => simp [download_file, hf]
  | some r =>
    cases he : r.expiry with
    | none => simp [download_file, hf, he]
    | some t =>
      by_cases hn : now > t
      · rw [download_file_expired st now fid req r t hf he hn] at h
        simp at h
      · cases hm : r.max_downloads with
        | null =>
          rw [download_file_quota_null st now fid req r t hf he hn hm]
          exact downloadPasswordPhase_snd st fid r req none
        | int m =>
          by_cases hq : m - r.views ≤ 0
          · rw [download_file_quota_exhausted st now fid req r t m hf he hn hm hq] at h
            simp at h
          · rw [download_file_quota_int_ok st now fid req r t m hf he hn hm hq]
            exact downloadPasswordPhase_snd st fid r req (some (m - r.views))
        | text s =>
          rw [download_file_text_quota st now fid req r t s hf he hn hm]

/-- A concrete record for the C10 witness: password-protected. -/
def recC10 : FileRecord :=
  { id := "k", filename := "k", original_filename := "w.txt",
    expiry := some 1000, views := 0, max_downloads := SqlVal.null,
    password := some (generate_password_hash "right") }

/-- The store holding `recC10`. -/
def stC10 : Store := { db := [recC10], blobs := [] }

/-- Witness for C10: a POST with the wrong password at the concrete store
`stC10` leaves the store unchanged. -/
theorem C10_witness :
    (download_file stC10 5 "k" { method := Method.post, password := "wrong" }).2 = stC10 :=
  C10_failed_password_frame stC10 5 "k" _ (by decide)

end SecureFiles
